import Mathlib

/-!
Verification development for the Devin MCP server with Slack integration
(`src/unnamed/part_001`, entry point compiled from TypeScript).

The server is modelled shallowly: JavaScript strings become `List Char`,
optional/missing arguments become `Option`, each outbound HTTP or Slack call
is answered by an explicit environment (`Env`) of oracles, and every tool
handler returns its MCP result envelope together with the list of outbound
calls it issued, in order.  JavaScript-specific coercions that matter to the
control flow (`String(undefined) = "undefined"`, truthiness of strings,
`Number(x) || undefined`, `Boolean(x) || false`) are modelled explicitly.
-/

namespace McpDevin

/-- JavaScript strings, modelled as lists of characters. -/
abbrev Str := List Char

/-- Truthiness of a JavaScript string: only the empty string is falsy. -/
def strTruthy (s : Str) : Bool := !s.isEmpty

/-- Truthiness of a possibly-missing JavaScript string:
`undefined` and the empty string are falsy. -/
def optStrTruthy (s : Option Str) : Bool :=
  match s with
  | some s => strTruthy s
  | none => false

/-- `String(x)` applied to a possibly-missing value: a missing value
(`undefined`) stringifies to the literal string `"undefined"`. -/
def coerceString (x : Option Str) : Str :=
  match x with
  | some s => s
  | none => "undefined".data

/-- `Number(x) || undefined` on a possibly-missing numeric argument:
a missing value gives `NaN` (falsy), and `0` is falsy, so both collapse
to `undefined`; any other number passes through. -/
def numberOrUndefined (x : Option Nat) : Option Nat :=
  match x with
  | none => none
  | some 0 => none
  | some n => some n

/-- Decimal rendering of a natural number, as a JavaScript template
literal would interpolate it. -/
def showNat (n : Nat) : Str := (toString n).data

/-- The fixed cosmetic session-id tag `devin-` stripped by normalization. -/
def devinTag : Str := "devin-".data

/-- `normalizeSessionId` from the source: `replace` with the start-anchored
regex on the literal `devin-` tag and an empty replacement. The regex is
anchored and `replace` rewrites at most the first match, so exactly one
leading occurrence of the tag is removed when present and the string is
returned unchanged otherwise. -/
def normalizeSessionId (s : Str) : Str :=
  if devinTag.isPrefixOf s then s.drop devinTag.length else s

/-- Character class `[A-Z0-9]` of the canonical channel-id regex. -/
def isUpperAlnumChar (c : Char) : Bool :=
  ('A' ≤ c && c ≤ 'Z') || ('0' ≤ c && c ≤ '9')

/-- The canonical channel-id test `/^[C][A-Z0-9]{8,}$/.test s`:
a literal `C` followed by at least eight uppercase-alphanumeric characters,
with nothing else before or after. -/
def isCanonicalChannelId (s : Str) : Bool :=
  match s with
  | 'C' :: rest => decide (8 ≤ rest.length) && rest.all isUpperAlnumChar
  | _ => false

/-- A channel entry as returned by Slack `conversations.list`; both fields
are optional in the Slack API types. -/
structure SlackChannel where
  name : Option Str
  id : Option Str
deriving DecidableEq

/-- A member entry as returned by Slack `users.list`. `display_name` stands
for `profile?.display_name` in the source. -/
structure SlackMember where
  name : Option Str
  real_name : Option Str
  display_name : Option Str
  id : Option Str
deriving DecidableEq

/-- Response of Slack `chat.postMessage`: the message timestamp handle. -/
structure SlackPostResp where
  ts : Str
deriving DecidableEq

/-- Outcome of a Slack Web API call: a resolved value or a thrown error,
the latter carrying its string rendering. -/
inductive SlackOutcome (α : Type) where
  | ok (data : α)
  | thrown (msg : Str)
deriving DecidableEq

/-- Outcome of an axios call: a resolved response (status and body), a
rejected `AxiosError` carrying an upstream HTTP response (status and the
serialized body, i.e. what `JSON.stringify(error.response?.data)` yields),
or a thrown non-axios error. -/
inductive AxiosOutcome (α : Type) where
  | resp (status : Nat) (data : α)
  | errResp (status : Nat) (body : Str)
  | exn (msg : Str)
deriving DecidableEq

/-- Body of a successful `POST /session` response. -/
structure CreateResp where
  session_id : Str
  url : Str
  is_new_session : Bool
deriving DecidableEq

/-- Body of a `GET /session/:id` response. `rest` stands opaquely for all
fields other than the ones the handler reads or writes. -/
structure SessionData where
  session_id : Option Str
  original_session_id : Option Str
  messages : Option Str
  rest : Str
deriving DecidableEq

/-- One entry of the `sessions` array of a `GET /session` list response;
`other` stands opaquely for the entry's remaining fields. -/
structure SessionEntry where
  session_id : Option Str
  original_session_id : Option Str
  other : Str
deriving DecidableEq

/-- Body of a `GET /session` list response. -/
structure ListResp where
  sessions : Option (List SessionEntry)
  rest : Str
deriving DecidableEq

/-- One outbound call issued by a tool handler, with the arguments that
were sent. -/
inductive CallEvent where
  | devinCreate (prompt : Str) (idempotent : Bool)
      (machine_snapshot_id : Option Str) (max_acu : Option Nat)
  | devinGetSession (id : Str)
  | devinGetMessages (id : Str)
  | devinPostMessage (id : Str) (message : Str)
  | devinListSessions (limit : Option Nat) (offset : Option Nat)
  | slackConversationsList
  | slackUsersList
  | slackPostMessage (channel : Str) (text : Str) (threadTs : Option Str)
deriving DecidableEq

/-- Environment of outbound-call oracles: each field answers one upstream
endpoint, deterministically in the arguments of the call. -/
structure Env where
  createSession : Str → Bool → Option Str → Option Nat → AxiosOutcome CreateResp
  getSession : Str → AxiosOutcome SessionData
  getSessionMessages : Str → AxiosOutcome (Option Str)
  postMessage : Str → Str → AxiosOutcome Str
  listSessions : Option Nat → Option Nat → AxiosOutcome ListResp
  conversationsList : SlackOutcome (Option (List SlackChannel))
  usersList : SlackOutcome (Option (List SlackMember))
  chatPostMessage : Str → Str → Option Str → SlackOutcome SlackPostResp

/-- Process-wide read-only configuration. -/
structure Config where
  orgName : Str
  baseUrl : Str
  slackDefaultChannel : Str

/-- Strips the optional leading `#` marker from a channel name:
`channelNameOrId.startsWith('#') ? channelNameOrId.substring(1) : ...`. -/
def stripHash (s : Str) : Str :=
  match s with
  | '#' :: rest => rest
  | _ => s

/-- `getChannelId` from the source: a canonical-pattern input is returned
unchanged with no lookup; otherwise `conversations.list` is issued, the
`#`-stripped input is matched against channel names, and a channel with a
truthy id yields that id; every other path throws `Channel not found`,
and a thrown listing call is propagated. -/
def getChannelId (env : Env) (channelNameOrId : Str) :
    Except Str Str × List CallEvent :=
  if isCanonicalChannelId channelNameOrId then
    (Except.ok channelNameOrId, [])
  else
    match env.conversationsList with
    | SlackOutcome.thrown msg =>
        (Except.error msg, [CallEvent.slackConversationsList])
    | SlackOutcome.ok chansOpt =>
        let notFound : Except Str Str :=
          Except.error ("Channel not found: ".data ++ channelNameOrId)
        match chansOpt with
        | none => (notFound, [CallEvent.slackConversationsList])
        | some channels =>
            match channels.find?
                (fun ch => ch.name == some (stripHash channelNameOrId)) with
            | some ch =>
                match ch.id with
                | some cid =>
                    if cid.isEmpty then (notFound, [CallEvent.slackConversationsList])
                    else (Except.ok cid, [CallEvent.slackConversationsList])
                | none => (notFound, [CallEvent.slackConversationsList])
            | none => (notFound, [CallEvent.slackConversationsList])

/-- `sendSlackMessage` from the source: resolve the channel via
`getChannelId`, then post; any failure is rethrown to the caller. -/
def sendSlackMessage (env : Env) (channel text : Str) (threadTs : Option Str) :
    Except Str SlackPostResp × List CallEvent :=
  match getChannelId env channel with
  | (Except.error msg, ev) => (Except.error msg, ev)
  | (Except.ok channelId, ev) =>
      match env.chatPostMessage channelId text threadTs with
      | SlackOutcome.thrown msg =>
          (Except.error msg, ev ++ [CallEvent.slackPostMessage channelId text threadTs])
      | SlackOutcome.ok r =>
          (Except.ok r, ev ++ [CallEvent.slackPostMessage channelId text threadTs])

/-- Chat delivery metadata attached to a successful relayed send. -/
structure SlackRelayInfo where
  channel : Str
  thread_ts : Str
  message_ts : Str
deriving DecidableEq

/-- The structured JSON payloads the handlers serialize with
`JSON.stringify`; each constructor mirrors one object literal of the
source, field for field. -/
inductive Payload where
  | createOk (session_id : Str) (original_session_id : Str) (url : Str)
      (organization : Str) (is_new_session : Bool)
      (slack_message_ts : Str) (slack_channel : Str)
  | sendOk (success : Bool) (response_data : Str)
      (slack_response : Option SlackRelayInfo)
  | sendFail (success : Bool) (http_status : Nat) (response_data : Str)
  | sessionInfo (d : SessionData)
  | sessionList (d : ListResp)
  | orgInfo (name : Str) (base_url : Str)
deriving DecidableEq

/-- The text body of a result envelope: either a plain template string or
the `JSON.stringify` rendering of a structured payload. -/
inductive BodyText where
  | plain (s : Str)
  | json (p : Payload)
deriving DecidableEq

/-- The MCP result envelope: one text content item plus the `isError`
flag (`false` models an absent flag). -/
structure ToolResult where
  body : BodyText
  isError : Bool
deriving DecidableEq

/-- The `success` flag carried by a serialized send-message payload,
when there is one. -/
def successFlag : ToolResult → Option Bool
  | { body := BodyText.json (Payload.sendOk success _ _), .. } => some success
  | { body := BodyText.json (Payload.sendFail success _ _), .. } => some success
  | _ => none

/-- Template head of the axios-error envelope of `create_devin_session`. -/
def errCreateHead : Str := "Error creating session: ".data

/-- Template head of the axios-error envelope of `get_devin_session`. -/
def errGetHead : Str := "Error getting session: ".data

/-- Template head of the axios-error envelope of `send_message_to_session`. -/
def errSendHead : Str := "Error sending message: ".data

/-- Template head of the axios-error envelope of `list_devin_sessions`. -/
def errListHead : Str := "Error listing sessions: ".data

/-- Template head of the generic catch-all envelope `Unexpected error: `. -/
def unexpectedHead : Str := "Unexpected error: ".data

/-- The separator of the axios-error template between status and body. -/
def dashSep : Str := " - ".data

/-- Full text of an axios-error envelope: head, HTTP status, separator,
serialized upstream body. -/
def axiosErrText (head : Str) (status : Nat) (body : Str) : Str :=
  head ++ showNat status ++ dashSep ++ body

/-- An error envelope with a plain text body. -/
def plainErr (s : Str) : ToolResult := { body := BodyText.plain s, isError := true }

/-- `response.data || {}`: an empty upstream body is replaced by an empty
object before serialization. -/
def dataOrEmptyObj (s : Str) : Str := if s.isEmpty then "\x7b\x7d".data else s

/-- Arguments of `create_devin_session`, each `Option` marking a possibly
missing argument. -/
structure CreateArgs where
  prompt : Option Str
  machine_snapshot_id : Option Str
  max_acu : Option Nat
  idempotent : Option Bool
  slack_channel : Option Str
deriving DecidableEq

/-- Arguments of `get_devin_session`. -/
structure GetArgs where
  session_id : Option Str
  fetch_slack_info : Option Bool
deriving DecidableEq

/-- Arguments of `send_message_to_session`. -/
structure SendArgs where
  session_id : Option Str
  message : Option Str
  slack_channel : Option Str
  slack_thread_ts : Option Str
deriving DecidableEq

/-- Arguments of `list_devin_sessions`. -/
structure ListArgs where
  limit : Option Nat
  offset : Option Nat
deriving DecidableEq

/-- The `machine_snapshot_id` actually placed in the create request body:
included only when the argument is truthy. -/
def snapOf (x : Option Str) : Option Str :=
  match x with
  | some s => if s.isEmpty then none else some s
  | none => none

/-- The target channel of `create_devin_session`:
`arguments?.slack_channel as string || SLACK_DEFAULT_CHANNEL`. -/
def chanOf (x : Option Str) (dflt : Str) : Str :=
  match x with
  | some s => if s.isEmpty then dflt else s
  | none => dflt

/-- The member heuristic of the bot-identity lookup:
`name === "devin" || real_name === "Devin" || profile?.display_name === "Devin"`. -/
def isDevinUser (u : SlackMember) : Bool :=
  u.name == some "devin".data || u.real_name == some "Devin".data ||
    u.display_name == some "Devin".data

/-- The best-effort `users.list` lookup of the bot identity: any failure or
absent match leaves the id empty; the one issued call is recorded. -/
def findDevinUserId (env : Env) : Str × List CallEvent :=
  match env.usersList with
  | SlackOutcome.thrown _ => ([], [CallEvent.slackUsersList])
  | SlackOutcome.ok none => ([], [CallEvent.slackUsersList])
  | SlackOutcome.ok (some members) =>
      match members.find? isDevinUser with
      | some u =>
          match u.id with
          | some uid =>
              if uid.isEmpty then ([], [CallEvent.slackUsersList])
              else (uid, [CallEvent.slackUsersList])
          | none => ([], [CallEvent.slackUsersList])
      | none => ([], [CallEvent.slackUsersList])

/-- The Slack message composed for a new session: a proper mention when the
bot identity was found, the plain-text fallback otherwise. -/
def slackMention (devinUserId prompt : Str) : Str :=
  if devinUserId.isEmpty then "@Devin ".data ++ prompt
  else "<@".data ++ devinUserId ++ "> ".data ++ prompt

/-- The `create_devin_session` tool case: coerce the arguments, guard the
prompt, issue the create call, best-effort-find the bot identity, and post
the mention to the resolved channel; the whole body is one try/catch whose
axios errors surface status and body and whose other errors surface the
generic message. -/
def createDevinSession (env : Env) (cfg : Config) (args : CreateArgs) :
    ToolResult × List CallEvent :=
  let prompt := coerceString args.prompt
  let max_acu := numberOrUndefined args.max_acu
  let idempotent := args.idempotent.getD false
  let slack_channel := chanOf args.slack_channel cfg.slackDefaultChannel
  if !strTruthy prompt then
    (plainErr "Error: prompt is required".data, [])
  else
    let snap := snapOf args.machine_snapshot_id
    let ev0 := [CallEvent.devinCreate prompt idempotent snap max_acu]
    match env.createSession prompt idempotent snap max_acu with
    | AxiosOutcome.errResp st body =>
        (plainErr (axiosErrText errCreateHead st body), ev0)
    | AxiosOutcome.exn msg => (plainErr (unexpectedHead ++ msg), ev0)
    | AxiosOutcome.resp _ data =>
        let found := findDevinUserId env
        let slackMessage := slackMention found.1 prompt
        match sendSlackMessage env slack_channel slackMessage none with
        | (Except.error msg, ev2) =>
            (plainErr (unexpectedHead ++ msg), ev0 ++ found.2 ++ ev2)
        | (Except.ok slackResp, ev2) =>
            ({ body := BodyText.json (Payload.createOk
                  (normalizeSessionId data.session_id) data.session_id
                  data.url cfg.orgName data.is_new_session
                  slackResp.ts slack_channel),
               isError := false },
             ev0 ++ found.2 ++ ev2)

/-- The session-id re-attachment of `get_devin_session`: when the payload
carries a truthy `session_id`, record the original and overwrite with the
normalized form; otherwise leave the payload untouched. -/
def reattachSessionIds (d : SessionData) : SessionData :=
  match d.session_id with
  | some sid =>
      if sid.isEmpty then d
      else { d with original_session_id := some sid,
                    session_id := some (normalizeSessionId sid) }
  | none => d

/-- The `get_devin_session` tool case: coerce and guard the session id,
fetch the session under the normalized id, optionally merge the message
history (swallowing its failure), re-attach the ids, and wrap up; axios
errors of the primary fetch surface status and body. -/
def getDevinSession (env : Env) (args : GetArgs) :
    ToolResult × List CallEvent :=
  let session_id := coerceString args.session_id
  let fetch_slack_info := args.fetch_slack_info.getD false
  if !strTruthy session_id then
    (plainErr "Error: session_id is required".data, [])
  else
    let nid := normalizeSessionId session_id
    let ev0 := [CallEvent.devinGetSession nid]
    match env.getSession nid with
    | AxiosOutcome.errResp st body =>
        (plainErr (axiosErrText errGetHead st body), ev0)
    | AxiosOutcome.exn msg => (plainErr (unexpectedHead ++ msg), ev0)
    | AxiosOutcome.resp _ data0 =>
        let step :=
          if fetch_slack_info then
            match env.getSessionMessages nid with
            | AxiosOutcome.resp _ msgs =>
                ({ data0 with messages := msgs }, [CallEvent.devinGetMessages nid])
            | AxiosOutcome.errResp _ _ => (data0, [CallEvent.devinGetMessages nid])
            | AxiosOutcome.exn _ => (data0, [CallEvent.devinGetMessages nid])
          else (data0, [])
        ({ body := BodyText.json (Payload.sessionInfo (reattachSessionIds step.1)),
           isError := false },
         ev0 ++ step.2)

/-- The `send_message_to_session` tool case: coerce and guard the
arguments, post the message under the normalized id, treat any 2xx status
as success, relay to the Slack thread when both channel and thread are
supplied, and wrap the outcome; a throw anywhere in the body (including
the relay) falls to the catch branches. -/
def sendMessageToSession (env : Env) (args : SendArgs) :
    ToolResult × List CallEvent :=
  let session_id := coerceString args.session_id
  let message := coerceString args.message
  if !strTruthy session_id then
    (plainErr "Error: session_id is required".data, [])
  else if !strTruthy message then
    (plainErr "Error: message is required".data, [])
  else
    let nid := normalizeSessionId session_id
    let ev0 := [CallEvent.devinPostMessage nid message]
    match env.postMessage nid message with
    | AxiosOutcome.errResp st body =>
        (plainErr (axiosErrText errSendHead st body), ev0)
    | AxiosOutcome.exn msg => (plainErr (unexpectedHead ++ msg), ev0)
    | AxiosOutcome.resp st data =>
        let isSuccess := decide (200 ≤ st) && decide (st < 300)
        if isSuccess && optStrTruthy args.slack_channel
            && optStrTruthy args.slack_thread_ts then
          match sendSlackMessage env (args.slack_channel.getD [])
              message args.slack_thread_ts with
          | (Except.error msg, ev1) =>
              (plainErr (unexpectedHead ++ msg), ev0 ++ ev1)
          | (Except.ok sr, ev1) =>
              ({ body := BodyText.json (Payload.sendOk true (dataOrEmptyObj data)
                    (some { channel := args.slack_channel.getD [],
                            thread_ts := args.slack_thread_ts.getD [],
                            message_ts := sr.ts })),
                 isError := false },
               ev0 ++ ev1)
        else
          if isSuccess then
            ({ body := BodyText.json (Payload.sendOk true (dataOrEmptyObj data) none),
               isError := false },
             ev0)
          else
            ({ body := BodyText.json (Payload.sendFail false st (dataOrEmptyObj data)),
               isError := true },
             ev0)

/-- The per-entry normalization of `list_devin_sessions`: an entry with a
truthy `session_id` gets its original id recorded and its id normalized;
any other entry is returned unchanged. -/
def mapSessionEntry (s : SessionEntry) : SessionEntry :=
  match s.session_id with
  | some sid =>
      if sid.isEmpty then s
      else { s with original_session_id := some sid,
                    session_id := some (normalizeSessionId sid) }
  | none => s

/-- The `list_devin_sessions` tool case: coerce the paging arguments,
issue the list call, and normalize every entry of a present `sessions`
array; axios errors surface status and body. -/
def listDevinSessions (env : Env) (args : ListArgs) :
    ToolResult × List CallEvent :=
  let limit := numberOrUndefined args.limit
  let offset := numberOrUndefined args.offset
  let ev0 := [CallEvent.devinListSessions limit offset]
  match env.listSessions limit offset with
  | AxiosOutcome.errResp st body =>
      (plainErr (axiosErrText errListHead st body), ev0)
  | AxiosOutcome.exn msg => (plainErr (unexpectedHead ++ msg), ev0)
  | AxiosOutcome.resp _ data =>
      let normalizedData :=
        match data.sessions with
        | some sessions => { data with sessions := some (sessions.map mapSessionEntry) }
        | none => data
      ({ body := BodyText.json (Payload.sessionList normalizedData),
         isError := false },
       ev0)

/-- The `get_organization_info` tool case: no upstream call, the local
configuration echoed back. -/
def getOrganizationInfo (cfg : Config) : ToolResult × List CallEvent :=
  ({ body := BodyText.json (Payload.orgInfo cfg.orgName cfg.baseUrl),
     isError := false },
   [])

/-- A tool invocation: name (as a closed enumeration plus the unknown
default) with its argument record. -/
inductive ToolCall where
  | create (args : CreateArgs)
  | get (args : GetArgs)
  | send (args : SendArgs)
  | list (args : ListArgs)
  | orgInfo
  | unknown (name : Str)

/-- The switch of the call-tool handler: one case per declared tool and a
default unknown-tool error envelope. -/
def handleToolCall (env : Env) (cfg : Config) : ToolCall → ToolResult × List CallEvent
  | ToolCall.create args => createDevinSession env cfg args
  | ToolCall.get args => getDevinSession env args
  | ToolCall.send args => sendMessageToSession env args
  | ToolCall.list args => listDevinSessions env args
  | ToolCall.orgInfo => getOrganizationInfo cfg
  | ToolCall.unknown name =>
      (plainErr ("Unknown tool: ".data ++ name), [])

/-- Recognizer of agent create-session call events. -/
def isCreateEvent : CallEvent → Bool
  | CallEvent.devinCreate _ _ _ _ => true
  | _ => false

/-- Recognizer of chat post-message call events. -/
def isChatPostEvent : CallEvent → Bool
  | CallEvent.slackPostMessage _ _ _ => true
  | _ => false

/-- A non-empty JavaScript string is truthy. -/
theorem strTruthy_of_ne (s : Str) (h : s ≠ []) : strTruthy s = true := by
  cases s with
  | nil => exact absurd rfl h
  | cons a l => rfl

/-- Channel resolution issues at most the single listing call. -/
theorem getChannelId_trace (env : Env) (s : Str) :
    (getChannelId env s).2 = [] ∨
    (getChannelId env s).2 = [CallEvent.slackConversationsList] := by
  unfold getChannelId
  repeat' split
  all_goals simp

/-- A fully successful baseline environment used by concrete evaluations:
every agent endpoint resolves with status 200, `users.list` throws (the
best-effort identity lookup falls back), and the chat post succeeds. -/
def envBase : Env where
  createSession := fun _ _ _ _ => AxiosOutcome.resp 200
    { session_id := "devin-abc".data, url := "https://app/s/abc".data,
      is_new_session := true }
  getSession := fun _ => AxiosOutcome.resp 200
    { session_id := some "devin-abc".data, original_session_id := none,
      messages := none, rest := "running".data }
  getSessionMessages := fun _ => AxiosOutcome.exn "history down".data
  postMessage := fun _ _ => AxiosOutcome.resp 200 []
  listSessions := fun _ _ => AxiosOutcome.resp 200 { sessions := none, rest := [] }
  conversationsList := SlackOutcome.ok none
  usersList := SlackOutcome.thrown "users down".data
  chatPostMessage := fun _ _ _ => SlackOutcome.ok { ts := "123.456".data }

/-- Baseline configuration with a canonical default channel. -/
def cfgBase : Config where
  orgName := "Org".data
  baseUrl := "https://api.devin.ai/v1".data
  slackDefaultChannel := "C12345678".data

/-- A `create_devin_session` invocation with every argument missing. -/
def argsNoCreate : CreateArgs :=
  { prompt := none, machine_snapshot_id := none, max_acu := none,
    idempotent := none, slack_channel := none }

/-- A `get_devin_session` invocation with every argument missing. -/
def argsNoGet : GetArgs := { session_id := none, fetch_slack_info := none }

/-- A `send_message_to_session` invocation with every argument missing. -/
def argsNoSend : SendArgs :=
  { session_id := none, message := none, slack_channel := none,
    slack_thread_ts := none }

/-- C1. The spec demands that a tool invocation missing a required argument
be answered with an error envelope before any outbound call; the source
even carries dedicated guards and error strings for exactly that. The code
defeats its own guards: `String(undefined)` coerces a missing argument to
the truthy literal string `"undefined"`, so for each of the three guarded
tools the invocation with the required arguments omitted passes the guard,
issues the outbound call (with the literal `"undefined"` interpolated into
the request), and returns a success envelope. -/
theorem c1_missing_args_not_rejected :
    ((createDevinSession envBase cfgBase argsNoCreate).1.isError = false ∧
      (createDevinSession envBase cfgBase argsNoCreate).2.head? =
        some (CallEvent.devinCreate "undefined".data false none none)) ∧
    ((getDevinSession envBase argsNoGet).1.isError = false ∧
      (getDevinSession envBase argsNoGet).2.head? =
        some (CallEvent.devinGetSession "undefined".data)) ∧
    ((sendMessageToSession envBase argsNoSend).1.isError = false ∧
      (sendMessageToSession envBase argsNoSend).2.head? =
        some (CallEvent.devinPostMessage "undefined".data "undefined".data)) :=
  ⟨⟨rfl, rfl⟩, ⟨rfl, rfl⟩, ⟨rfl, rfl⟩⟩

/-- C2. `normalizeSessionId` is a pure total function: on a string that
begins with the `devin-` tag it removes exactly one leading occurrence of
the tag, and on any other string it is the identity. -/
theorem c2_normalizeSessionId_spec :
    (∀ t : Str, normalizeSessionId (devinTag ++ t) = t) ∧
    (∀ s : Str, devinTag.isPrefixOf s = false → normalizeSessionId s = s) := by
  constructor
  · intro t
    have h : devinTag.isPrefixOf (devinTag ++ t) = true :=
      List.isPrefixOf_iff_prefix.mpr (List.prefix_append _ _)
    simp only [normalizeSessionId, h, if_true]
    exact List.drop_left _ _
  · intro s h
    simp only [normalizeSessionId, h]
    simp

/-- C2 witness: the two branches of `c2_normalizeSessionId_spec` evaluated
at concrete identifiers, the second hypothesis discharged by `decide`. -/
theorem c2_normalizeSessionId_spec_witness :
    normalizeSessionId (devinTag ++ "xyz".data) = "xyz".data ∧
    normalizeSessionId "abc".data = "abc".data :=
  ⟨c2_normalizeSessionId_spec.1 "xyz".data,
   c2_normalizeSessionId_spec.2 "abc".data (by decide)⟩

/-- C3. An input matching the canonical channel-id pattern is returned
unchanged by `getChannelId` with an empty outbound trace: resolution of
canonical identifiers is the identity (hence idempotent) and issues no
channel-listing call. -/
theorem c3_canonical_channel_identity (env : Env) (s : Str)
    (h : isCanonicalChannelId s = true) :
    getChannelId env s = (Except.ok s, []) := by
  unfold getChannelId
  simp [h]

/-- C3 witness: `c3_canonical_channel_identity` applied to the baseline
environment and a concrete canonical identifier. -/
theorem c3_canonical_channel_identity_witness :
    getChannelId envBase "C12345678".data = (Except.ok "C12345678".data, []) :=
  c3_canonical_channel_identity envBase "C12345678".data (by decide)

/-- Environment for the C4 counterexample: the agent message post resolves
with 200 and an empty body, but the chat post throws. -/
def envC4 : Env :=
  { envBase with chatPostMessage := fun _ _ _ => SlackOutcome.thrown "slack down".data }

/-- Arguments for the C4 counterexample: a valid session id and message
plus a canonical Slack channel and a thread timestamp, so the relay is
attempted. -/
def argsC4 : SendArgs :=
  { session_id := some "s1".data, message := some "hi".data,
    slack_channel := some "C12345678".data, slack_thread_ts := some "1".data }

/-- C4 counterexample. The claim quantifies over every invocation whose
primary post returns a 2xx: here the primary post resolves with 200 (and an
empty body), yet because both `slack_channel` and `slack_thread_ts` are
supplied and the relayed chat post throws, the single try/catch converts
the invocation into an error envelope — not a success. -/
theorem c4_counterexample :
    envC4.postMessage (normalizeSessionId "s1".data) "hi".data =
      AxiosOutcome.resp 200 [] ∧
    (sendMessageToSession envC4 argsC4).1.isError = true ∧
    (sendMessageToSession envC4 argsC4).1.body =
      BodyText.plain (unexpectedHead ++ "slack down".data) :=
  ⟨rfl, rfl, rfl⟩

/-- C4 as amended: an invocation whose primary post resolves with a status
in [200, 300) — an empty body included — yields a success envelope whose
payload carries `success: true`, provided the Slack relay is either not
attempted (channel and thread not both supplied truthy) or succeeds. -/
theorem c4_send_2xx_success (env : Env) (args : SendArgs) (sid m data : Str)
    (st : Nat)
    (hsid : args.session_id = some sid) (hsne : sid ≠ [])
    (hm : args.message = some m) (hmne : m ≠ [])
    (hpost : env.postMessage (normalizeSessionId sid) m = AxiosOutcome.resp st data)
    (hlo : 200 ≤ st) (hhi : st < 300)
    (hrelay : (optStrTruthy args.slack_channel && optStrTruthy args.slack_thread_ts) = false ∨
      ∃ r ev, sendSlackMessage env (args.slack_channel.getD []) m args.slack_thread_ts =
        (Except.ok r, ev)) :
    (sendMessageToSession env args).1.isError = false ∧
    successFlag (sendMessageToSession env args).1 = some true := by
  have hs : (decide (200 ≤ st) && decide (st < 300)) = true := by
    simp [hlo, hhi]
  by_cases hb : (optStrTruthy args.slack_channel && optStrTruthy args.slack_thread_ts) = true
  · rcases hrelay with hfalse | ⟨r, ev, hok⟩
    · rw [hfalse] at hb; exact absurd hb (by simp)
    · simp only [sendMessageToSession, hsid, hm, coerceString,
        strTruthy_of_ne sid hsne, strTruthy_of_ne m hmne, Bool.not_true,
        Bool.false_eq_true, if_false, hpost, hs, hb, Bool.true_and, if_true,
        hok]
      exact ⟨by simp [successFlag], by simp [successFlag]⟩
  · have hb' : (optStrTruthy args.slack_channel && optStrTruthy args.slack_thread_ts) = false :=
      by revert hb; cases optStrTruthy args.slack_channel && optStrTruthy args.slack_thread_ts <;> simp
    simp only [sendMessageToSession, hsid, hm, coerceString,
      strTruthy_of_ne sid hsne, strTruthy_of_ne m hmne, Bool.not_true,
      Bool.false_eq_true, if_false, hpost, hs, hb', Bool.true_and,
      Bool.and_false, Bool.false_and, if_true]
    exact ⟨by simp [successFlag], by simp [successFlag]⟩

/-- C4 witness: the amended theorem applied at an invocation with no Slack
relay arguments against the baseline environment, whose message post
resolves with 200 and an empty body. -/
theorem c4_send_2xx_success_witness :
    (sendMessageToSession envBase
      { session_id := some "s1".data, message := some "hi".data,
        slack_channel := none, slack_thread_ts := none }).1.isError = false ∧
    successFlag (sendMessageToSession envBase
      { session_id := some "s1".data, message := some "hi".data,
        slack_channel := none, slack_thread_ts := none }).1 = some true :=
  c4_send_2xx_success envBase
    { session_id := some "s1".data, message := some "hi".data,
      slack_channel := none, slack_thread_ts := none }
    "s1".data "hi".data [] 200 rfl (by decide) rfl (by decide) rfl
    (by decide) (by decide) (Or.inl rfl)

/-- C5. An invocation whose primary post is rejected with an upstream HTTP
404 yields an error envelope whose text is the axios-error template:
it carries the status `404` and the serialized upstream body verbatim as
infixes. -/
theorem c5_send_404_error (env : Env) (args : SendArgs) (sid m b : Str)
    (hsid : args.session_id = some sid) (hsne : sid ≠ [])
    (hm : args.message = some m) (hmne : m ≠ [])
    (hpost : env.postMessage (normalizeSessionId sid) m = AxiosOutcome.errResp 404 b) :
    (sendMessageToSession env args).1.isError = true ∧
    (sendMessageToSession env args).1.body =
      BodyText.plain (axiosErrText errSendHead 404 b) ∧
    showNat 404 <:+: axiosErrText errSendHead 404 b ∧
    b <:+: axiosErrText errSendHead 404 b := by
  refine ⟨?_, ?_, ?_, ?_⟩
  · simp only [sendMessageToSession, hsid, hm, coerceString,
      strTruthy_of_ne sid hsne, strTruthy_of_ne m hmne, Bool.not_true,
      Bool.false_eq_true, if_false, hpost]
    rfl
  · simp only [sendMessageToSession, hsid, hm, coerceString,
      strTruthy_of_ne sid hsne, strTruthy_of_ne m hmne, Bool.not_true,
      Bool.false_eq_true, if_false, hpost]
    rfl
  · exact ⟨errSendHead, dashSep ++ b, by simp [axiosErrText, List.append_assoc]⟩
  · exact ⟨errSendHead ++ showNat 404 ++ dashSep, [],
      by simp [axiosErrText, List.append_assoc]⟩

/-- Environment for the C5 witness: the agent message post rejects with a
404 carrying a concrete body. -/
def envC5 : Env :=
  { envBase with postMessage := fun _ _ =>
      AxiosOutcome.errResp 404 "Session not found".data }

/-- C5 witness: `c5_send_404_error` applied to a concrete invocation
against `envC5`. -/
theorem c5_send_404_error_witness :
    (sendMessageToSession envC5
      { session_id := some "s1".data, message := some "hi".data,
        slack_channel := none, slack_thread_ts := none }).1.isError = true ∧
    (sendMessageToSession envC5
      { session_id := some "s1".data, message := some "hi".data,
        slack_channel := none, slack_thread_ts := none }).1.body =
      BodyText.plain (axiosErrText errSendHead 404 "Session not found".data) ∧
    showNat 404 <:+: axiosErrText errSendHead 404 "Session not found".data ∧
    "Session not found".data <:+: axiosErrText errSendHead 404 "Session not found".data :=
  c5_send_404_error envC5
    { session_id := some "s1".data, message := some "hi".data,
      slack_channel := none, slack_thread_ts := none }
    "s1".data "hi".data "Session not found".data rfl (by decide) rfl (by decide) rfl

/-- C6. With `fetch_slack_info` requested, a successful primary session
fetch whose secondary message-history fetch throws still yields a success
envelope (the error flag absent) carrying the primary session data, with
only the usual id re-attachment applied: the secondary failure is
swallowed. -/
theorem c6_degraded_history (env : Env) (args : GetArgs) (sid emsg : Str)
    (st : Nat) (d : SessionData)
    (hsid : args.session_id = some sid) (hsne : sid ≠ [])
    (hf : args.fetch_slack_info = some true)
    (hget : env.getSession (normalizeSessionId sid) = AxiosOutcome.resp st d)
    (hmsg : env.getSessionMessages (normalizeSessionId sid) = AxiosOutcome.exn emsg) :
    (getDevinSession env args).1.isError = false ∧
    (getDevinSession env args).1.body =
      BodyText.json (Payload.sessionInfo (reattachSessionIds d)) := by
  simp only [getDevinSession, hsid, hf, coerceString, Option.getD,
    strTruthy_of_ne sid hsne, Bool.not_true, Bool.false_eq_true, if_false,
    hget, hmsg, if_true]
  exact ⟨by trivial, by trivial⟩

/-- The session payload served by the baseline environment. -/
def dBase : SessionData :=
  { session_id := some "devin-abc".data, original_session_id := none,
    messages := none, rest := "running".data }

/-- C6 witness: `c6_degraded_history` applied against the baseline
environment, whose history endpoint throws. -/
theorem c6_degraded_history_witness :
    (getDevinSession envBase
      { session_id := some "s1".data, fetch_slack_info := some true }).1.isError = false ∧
    (getDevinSession envBase
      { session_id := some "s1".data, fetch_slack_info := some true }).1.body =
      BodyText.json (Payload.sessionInfo (reattachSessionIds dBase)) :=
  c6_degraded_history envBase
    { session_id := some "s1".data, fetch_slack_info := some true }
    "s1".data "history down".data 200 dBase rfl (by decide) rfl rfl rfl

/-- An upstream session payload with no `session_id` field at all. -/
def dNoId : SessionData :=
  { session_id := none, original_session_id := none, messages := none,
    rest := "running".data }

/-- Environment for the C7 counterexample: the primary session fetch
succeeds but its payload carries no `session_id`. -/
def envC7 : Env := { envBase with getSession := fun _ => AxiosOutcome.resp 200 dNoId }

/-- C7 counterexample. The claim says every successful `get_devin_session`
payload carries both the normalized and the original session id regardless
of the upstream shape; but the re-attachment is guarded by the truthiness
of the upstream `session_id`, so a successful invocation whose upstream
payload lacks that field returns a payload carrying neither id. -/
theorem c7_counterexample :
    (getDevinSession envC7
      { session_id := some "s1".data, fetch_slack_info := none }).1.isError = false ∧
    (getDevinSession envC7
      { session_id := some "s1".data, fetch_slack_info := none }).1.body =
      BodyText.json (Payload.sessionInfo dNoId) ∧
    dNoId.session_id = none ∧ dNoId.original_session_id = none :=
  ⟨rfl, rfl, rfl, rfl⟩

/-- C7 as amended: for every successful `get_devin_session` invocation
whose upstream payload carries a non-empty `session_id`, the returned
payload carries both the normalized id (under `session_id`) and the raw
id (under `original_session_id`). -/
theorem c7_ids_reattached (env : Env) (args : GetArgs) (sid s : Str)
    (st : Nat) (d : SessionData)
    (hsid : args.session_id = some sid) (hsne : sid ≠ [])
    (hget : env.getSession (normalizeSessionId sid) = AxiosOutcome.resp st d)
    (hds : d.session_id = some s) (hsne2 : s ≠ []) :
    ∃ d2 : SessionData,
      (getDevinSession env args).1.body = BodyText.json (Payload.sessionInfo d2) ∧
      d2.session_id = some (normalizeSessionId s) ∧
      d2.original_session_id = some s ∧
      (getDevinSession env args).1.isError = false := by
  have hse : s.isEmpty = false := by
    cases s with
    | nil => exact absurd rfl hsne2
    | cons a l => rfl
  have hre : ∀ d' : SessionData, d'.session_id = some s →
      (reattachSessionIds d').session_id = some (normalizeSessionId s) ∧
      (reattachSessionIds d').original_session_id = some s := by
    intro d' h
    simp [reattachSessionIds, h, hse]
  simp only [getDevinSession, hsid, coerceString, strTruthy_of_ne sid hsne,
    Bool.not_true, Bool.false_eq_true, if_false, hget]
  by_cases hf : args.fetch_slack_info.getD false = true
  · simp only [hf, if_true]
    cases hmo : env.getSessionMessages (normalizeSessionId sid) with
    | resp st2 msgs =>
        exact ⟨reattachSessionIds { d with messages := msgs }, by trivial,
          (hre _ (by simp [hds])).1, (hre _ (by simp [hds])).2, by trivial⟩
    | errResp st2 b =>
        exact ⟨reattachSessionIds d, by trivial, (hre d hds).1, (hre d hds).2,
          by trivial⟩
    | exn msg =>
        exact ⟨reattachSessionIds d, by trivial, (hre d hds).1, (hre d hds).2,
          by trivial⟩
  · simp only [Bool.not_eq_true] at hf
    simp only [hf, Bool.false_eq_true, if_false]
    exact ⟨reattachSessionIds d, by trivial, (hre d hds).1, (hre d hds).2,
      by trivial⟩

/-- C7 witness: the amended theorem applied against the baseline
environment, whose session payload carries the raw id `devin-abc`. -/
theorem c7_ids_reattached_witness :
    ∃ d2 : SessionData,
      (getDevinSession envBase
        { session_id := some "s1".data, fetch_slack_info := none }).1.body =
        BodyText.json (Payload.sessionInfo d2) ∧
      d2.session_id = some (normalizeSessionId "devin-abc".data) ∧
      d2.original_session_id = some "devin-abc".data ∧
      (getDevinSession envBase
        { session_id := some "s1".data, fetch_slack_info := none }).1.isError = false :=
  c7_ids_reattached envBase
    { session_id := some "s1".data, fetch_slack_info := none }
    "s1".data "devin-abc".data 200 dBase rfl (by decide) rfl rfl (by decide)

/-- A list entry whose `session_id` field is present but empty — a falsy
value in JavaScript. -/
def entryEmptyId : SessionEntry :=
  { session_id := some [], original_session_id := none, other := "o".data }

/-- Environment for the C8 counterexample: the list endpoint resolves with
one entry whose `session_id` field is present but empty. -/
def envC8 : Env :=
  { envBase with listSessions := fun _ _ =>
      AxiosOutcome.resp 200 { sessions := some [entryEmptyId], rest := [] } }

/-- C8 counterexample. The claim covers every entry that has a
`session_id` field; but the per-entry rewrite is guarded by truthiness, so
an entry whose `session_id` is present-but-empty is returned unchanged —
in particular without `original_session_id`. -/
theorem c8_counterexample :
    (listDevinSessions envC8 { limit := none, offset := none }).1.isError = false ∧
    (listDevinSessions envC8 { limit := none, offset := none }).1.body =
      BodyText.json (Payload.sessionList { sessions := some [entryEmptyId], rest := [] }) ∧
    entryEmptyId.session_id = some [] ∧
    entryEmptyId.original_session_id = none :=
  ⟨rfl, rfl, rfl, rfl⟩

/-- C8 as amended: a successful `list_devin_sessions` returns the upstream
list mapped entrywise by `mapSessionEntry`; an entry with a non-empty
`session_id` comes back with the id normalized, the original id preserved
under `original_session_id`, and all other fields unchanged, while an
entry with an empty or absent `session_id` comes back unchanged. -/
theorem c8_list_normalization (env : Env) (args : ListArgs) (st : Nat)
    (d : ListResp) (sessions : List SessionEntry)
    (hls : env.listSessions (numberOrUndefined args.limit)
      (numberOrUndefined args.offset) = AxiosOutcome.resp st d)
    (hs : d.sessions = some sessions) :
    (listDevinSessions env args).1.isError = false ∧
    (listDevinSessions env args).1.body =
      BodyText.json (Payload.sessionList
        { d with sessions := some (sessions.map mapSessionEntry) }) ∧
    (∀ e : SessionEntry, ∀ s : Str, e.session_id = some s → s ≠ [] →
      mapSessionEntry e = { e with original_session_id := some s,
                                   session_id := some (normalizeSessionId s) }) ∧
    (∀ e : SessionEntry, (e.session_id = some [] ∨ e.session_id = none) →
      mapSessionEntry e = e) := by
  refine ⟨?_, ?_, ?_, ?_⟩
  · simp only [listDevinSessions, hls, hs]
  · simp only [listDevinSessions, hls, hs]
  · intro e s he hne
    have hse : s.isEmpty = false := by
      cases s with
      | nil => exact absurd rfl hne
      | cons a l => rfl
    simp [mapSessionEntry, he, hse]
  · intro e he
    rcases he with he | he <;> simp [mapSessionEntry, he]

/-- A list entry carrying the raw id `devin-xyz`, for the C8 witness. -/
def entryXyz : SessionEntry :=
  { session_id := some "devin-xyz".data, original_session_id := none,
    other := "o".data }

/-- Environment for the C8 witness: the list endpoint serves one entry,
`entryXyz`. -/
def envC8w : Env :=
  { envBase with listSessions := fun _ _ =>
      AxiosOutcome.resp 200 { sessions := some [entryXyz], rest := [] } }

/-- C8 witness: the amended theorem applied against `envC8w`. -/
theorem c8_list_normalization_witness :
    (listDevinSessions envC8w { limit := none, offset := none }).1.isError = false ∧
    (listDevinSessions envC8w { limit := none, offset := none }).1.body =
      BodyText.json (Payload.sessionList
        { sessions := some ([entryXyz].map mapSessionEntry), rest := [] }) ∧
    (∀ e : SessionEntry, ∀ s : Str, e.session_id = some s → s ≠ [] →
      mapSessionEntry e = { e with original_session_id := some s,
                                   session_id := some (normalizeSessionId s) }) ∧
    (∀ e : SessionEntry, (e.session_id = some [] ∨ e.session_id = none) →
      mapSessionEntry e = e) :=
  c8_list_normalization envC8w { limit := none, offset := none } 200
    { sessions := some [entryXyz], rest := [] } [entryXyz] rfl rfl

/-- The bot-identity lookup issues exactly the single `users.list` call,
whatever its outcome. -/
theorem findDevinUserId_trace (env : Env) :
    (findDevinUserId env).2 = [CallEvent.slackUsersList] := by
  unfold findDevinUserId
  repeat' split
  all_goals rfl

/-- The `create_devin_session` invocation of the C9 property:
`prompt = "fix bug"` and nothing else. -/
def argsFixBug : CreateArgs :=
  { prompt := some "fix bug".data, machine_snapshot_id := none,
    max_acu := none, idempotent := none, slack_channel := none }

/-- C9. A `create_devin_session` invocation with `prompt = "fix bug"` and
no other arguments issues exactly one agent create call — carrying the
prompt, `idempotent = false`, and neither a machine snapshot nor a compute
budget — and exactly one chat post whose text contains the prompt, on the
normal path where the create call resolves, the channel resolves and the
chat post succeeds. -/
theorem c9_create_fix_bug (env : Env) (cfg : Config)
    (st : Nat) (d : CreateResp) (cid : Str) (evs : List CallEvent)
    (pr : SlackPostResp)
    (hcr : env.createSession "fix bug".data false none none = AxiosOutcome.resp st d)
    (hch : getChannelId env cfg.slackDefaultChannel = (Except.ok cid, evs))
    (hpost : env.chatPostMessage cid
      (slackMention (findDevinUserId env).1 "fix bug".data) none = SlackOutcome.ok pr) :
    (createDevinSession env cfg argsFixBug).2.countP isCreateEvent = 1 ∧
    CallEvent.devinCreate "fix bug".data false none none ∈
      (createDevinSession env cfg argsFixBug).2 ∧
    (createDevinSession env cfg argsFixBug).2.countP isChatPostEvent = 1 ∧
    CallEvent.slackPostMessage cid
      (slackMention (findDevinUserId env).1 "fix bug".data) none ∈
      (createDevinSession env cfg argsFixBug).2 ∧
    "fix bug".data <:+: slackMention (findDevinUserId env).1 "fix bug".data := by
  have hp : strTruthy "fix bug".data = true := by decide
  have hrun : (createDevinSession env cfg argsFixBug).2 =
      [CallEvent.devinCreate "fix bug".data false none none,
       CallEvent.slackUsersList] ++ evs ++
      [CallEvent.slackPostMessage cid
        (slackMention (findDevinUserId env).1 "fix bug".data) none] := by
    simp only [createDevinSession, argsFixBug, coerceString, snapOf,
      numberOrUndefined, chanOf, Option.getD, hp, Bool.not_true,
      Bool.false_eq_true, if_false, hcr, sendSlackMessage, hch, hpost,
      findDevinUserId_trace]
    simp [List.append_assoc]
  have hevs : evs = [] ∨ evs = [CallEvent.slackConversationsList] := by
    have h := getChannelId_trace env cfg.slackDefaultChannel
    rw [hch] at h
    exact h
  have hment : "fix bug".data <:+:
      slackMention (findDevinUserId env).1 "fix bug".data := by
    unfold slackMention
    split
    · exact ⟨"@Devin ".data, [], by simp⟩
    · exact ⟨"<@".data ++ (findDevinUserId env).1 ++ "> ".data, [],
        by simp [List.append_assoc]⟩
  rcases hevs with h | h <;>
    subst h <;>
    simp [hrun, isCreateEvent, isChatPostEvent, List.countP_append,
      List.countP_cons, hment]

/-- Environment for the C9 witness: create resolves, `users.list` throws
(the fallback mention is used), and the chat post succeeds. -/
def envC9w : Env := envBase

/-- C9 witness: `c9_create_fix_bug` applied against `envC9w` and the
baseline configuration, whose default channel is canonical. -/
theorem c9_create_fix_bug_witness :
    (createDevinSession envC9w cfgBase argsFixBug).2.countP isCreateEvent = 1 ∧
    CallEvent.devinCreate "fix bug".data false none none ∈
      (createDevinSession envC9w cfgBase argsFixBug).2 ∧
    (createDevinSession envC9w cfgBase argsFixBug).2.countP isChatPostEvent = 1 ∧
    CallEvent.slackPostMessage "C12345678".data
      (slackMention (findDevinUserId envC9w).1 "fix bug".data) none ∈
      (createDevinSession envC9w cfgBase argsFixBug).2 ∧
    "fix bug".data <:+: slackMention (findDevinUserId envC9w).1 "fix bug".data :=
  c9_create_fix_bug envC9w cfgBase 200
    { session_id := "devin-abc".data, url := "https://app/s/abc".data,
      is_new_session := true }
    "C12345678".data [] { ts := "123.456".data } rfl rfl rfl

/-- C10. In the Slack-integrated variant, when the agent create call
resolves but the subsequent chat post throws, the one try/catch produces
an error envelope whose text is built solely from the thrown error — it
carries no structured payload, so the created session's id and URL appear
in it only if they already occur in the error text itself — even though
the create call was issued (and succeeded): creation and the chat post are
not atomic. -/
theorem c10_slack_failure_after_create (env : Env) (cfg : Config)
    (args : CreateArgs) (p emsg : Str) (st : Nat) (d : CreateResp)
    (cid : Str) (evs : List CallEvent)
    (hp : args.prompt = some p) (hpne : p ≠ [])
    (hcr : env.createSession p (args.idempotent.getD false)
      (snapOf args.machine_snapshot_id) (numberOrUndefined args.max_acu) =
      AxiosOutcome.resp st d)
    (hch : getChannelId env (chanOf args.slack_channel cfg.slackDefaultChannel) =
      (Except.ok cid, evs))
    (hpost : env.chatPostMessage cid (slackMention (findDevinUserId env).1 p) none =
      SlackOutcome.thrown emsg) :
    (createDevinSession env cfg args).1.isError = true ∧
    (createDevinSession env cfg args).1.body =
      BodyText.plain (unexpectedHead ++ emsg) ∧
    (createDevinSession env cfg args).2.countP isCreateEvent = 1 ∧
    (∀ s : Str, ¬ s <:+: unexpectedHead ++ emsg →
      ∀ t : Str, (createDevinSession env cfg args).1.body = BodyText.plain t →
        ¬ s <:+: t) := by
  have hrun : createDevinSession env cfg args =
      (plainErr (unexpectedHead ++ emsg),
       [CallEvent.devinCreate p (args.idempotent.getD false)
          (snapOf args.machine_snapshot_id) (numberOrUndefined args.max_acu),
        CallEvent.slackUsersList] ++ evs ++
       [CallEvent.slackPostMessage cid
          (slackMention (findDevinUserId env).1 p) none]) := by
    simp only [createDevinSession, hp, coerceString, strTruthy_of_ne p hpne,
      Bool.not_true, Bool.false_eq_true, if_false, hcr, sendSlackMessage,
      hch, hpost, findDevinUserId_trace]
    simp [List.append_assoc]
  have hevs : evs = [] ∨ evs = [CallEvent.slackConversationsList] := by
    have h := getChannelId_trace env (chanOf args.slack_channel cfg.slackDefaultChannel)
    rw [hch] at h
    exact h
  refine ⟨by simp [hrun, plainErr], by simp [hrun, plainErr], ?_, ?_⟩
  · rcases hevs with h | h <;>
      subst h <;>
      simp [hrun, isCreateEvent, List.countP_append, List.countP_cons]
  · intro s hs t ht
    rw [hrun] at ht
    simp only [plainErr] at ht
    cases ht
    exact hs

/-- Environment for the C10 witness: create resolves with a session id and
URL, the channel is canonical, and the chat post throws. -/
def envC10w : Env :=
  { envBase with chatPostMessage := fun _ _ _ => SlackOutcome.thrown "slack down".data }

/-- C10 witness: `c10_slack_failure_after_create` applied against
`envC10w` at the invocation with `prompt = "fix bug"` and no other
arguments. -/
theorem c10_slack_failure_after_create_witness :
    (createDevinSession envC10w cfgBase argsFixBug).1.isError = true ∧
    (createDevinSession envC10w cfgBase argsFixBug).1.body =
      BodyText.plain (unexpectedHead ++ "slack down".data) ∧
    (createDevinSession envC10w cfgBase argsFixBug).2.countP isCreateEvent = 1 ∧
    (∀ s : Str, ¬ s <:+: unexpectedHead ++ "slack down".data →
      ∀ t : Str, (createDevinSession envC10w cfgBase argsFixBug).1.body =
        BodyText.plain t → ¬ s <:+: t) :=
  c10_slack_failure_after_create envC10w cfgBase argsFixBug
    "fix bug".data "slack down".data 200
    { session_id := "devin-abc".data, url := "https://app/s/abc".data,
      is_new_session := true }
    "C12345678".data [] rfl (by decide) rfl rfl rfl

end McpDevin
